import Mathlib

/-!
Verification of the credential and token lifecycle core of the
`Primer_auth` repository (three demo services: `jwt_auth`, `oauth_auth`,
`session_auth`).

Times are modelled as `Nat` seconds (PyJWT compares integer Unix
timestamps).  Bearer strings (JWTs, opaque refresh secrets, raw client
input) are modelled symbolically by the inductive type `PlainStr`, and
bcrypt is modelled as a perfect salted one-way function: a hash remembers
its salt and, symbolically, the hashed plaintext, and `checkpw` succeeds
exactly on the original plaintext.  SQLite tables and Python dicts are
modelled as lists of records; each operation of the source is translated
to a pure function threading the store state explicitly.
-/

/-- JWT claims dictionary as used by the source: `{"sub": ..., "exp": ...,
"type": ...}`.  `sub` is optional because `payload.get("sub")` may be
absent. -/
structure Claims where
  sub : Option Int
  exp : Nat
  tokenType : String
deriving DecidableEq, Repr

/-- Symbolic model of the bearer strings occurring in the system: the
string produced by `jwt.encode` (a payload plus an HMAC signature), the
string produced by `secrets.token_urlsafe` (identified by the RNG draw),
and arbitrary other strings supplied by clients (also used for user
passwords). -/
inductive PlainStr where
  | jwtTok (c : Claims) (sig : String × Claims)
  | secretTok (n : Nat)
  | str (s : String)
deriving DecidableEq, Repr

/-- Symbolic HMAC-SHA256: the MAC of a payload under a key is modelled as
the (injective) pair of the two, so that signature verification succeeds
exactly for honestly signed payloads. -/
def hmacSign (key : String) (c : Claims) : String × Claims := (key, c)

/-- `jwt.encode(payload, key, algorithm="HS256")`. -/
def jwtEncode (c : Claims) (key : String) : PlainStr :=
  .jwtTok c (hmacSign key c)

/-- The internal failure kinds of `jwt.decode` (PyJWT's `PyJWTError`
subclasses relevant here). -/
inductive JwtError where
  | invalidSignature
  | expiredSignature
  | malformed
deriving DecidableEq, Repr

/-- `jwt.decode(token, key, algorithms=["HS256"])` at instant `now`:
verifies the signature first, then rejects when `exp <= now` (PyJWT
raises `ExpiredSignatureError` iff `exp <= now` with zero leeway); a
string that is not a JWT at all fails to decode. -/
def jwtDecode (key : String) (now : Nat) : PlainStr → Except JwtError Claims
  | .jwtTok c sig =>
      if sig = hmacSign key c then
        if c.exp ≤ now then .error .expiredSignature else .ok c
      else .error .invalidSignature
  | .secretTok _ => .error .malformed
  | .str _ => .error .malformed

/-- `SECRET_KEY` of `jwt_auth/main.py` (the same literal is used by
`oauth_auth/main.py`). -/
def SECRET_KEY : String := "your-secret-key-change-in-production"

/-- `ACCESS_TOKEN_EXPIRE_MINUTES = 30` (`jwt_auth/main.py`). -/
def ACCESS_TOKEN_EXPIRE_MINUTES : Nat := 30

/-- `REFRESH_TOKEN_EXPIRE_DAYS = 7` (`jwt_auth/main.py`). -/
def REFRESH_TOKEN_EXPIRE_DAYS : Nat := 7

/-- `jwt_auth.create_access_token(data, expires_delta)` called with
`data = {"sub": sub}`: the source's `if expires_delta:` tests Python
truthiness, so a missing delta AND a zero delta (`timedelta(0)` is
falsy) both fall back to `exp = now + 30 minutes`; a nonzero delta sets
`exp = now + expires_delta`.  Adds `type = "access"` and signs with
`SECRET_KEY`. -/
def create_access_token (now : Nat) (sub : Option Int)
    (expires_delta : Option Nat) : PlainStr :=
  let expire :=
    match expires_delta with
    | some d =>
        if d ≠ 0 then now + d
        else now + ACCESS_TOKEN_EXPIRE_MINUTES * 60
    | none => now + ACCESS_TOKEN_EXPIRE_MINUTES * 60
  jwtEncode { sub := sub, exp := expire, tokenType := "access" } SECRET_KEY

/-- `jwt_auth.get_current_user`: decodes the bearer string (any
`PyJWTError` collapses to 401 "Invalid token"), then requires
`payload["type"] == "access"` (else 401 "Invalid token type"), then
requires a `sub` claim, which it returns. -/
def get_current_user (now : Nat) (token : PlainStr) :
    Except (Nat × String) Int :=
  match jwtDecode SECRET_KEY now token with
  | .error _ => .error (401, "Invalid token")
  | .ok payload =>
      if payload.tokenType ≠ "access" then
        .error (401, "Invalid token type")
      else
        match payload.sub with
        | none => .error (401, "Invalid token")
        | some user_id => .ok user_id

example : get_current_user 100 (create_access_token 0 (some 1) (some 200)) = .ok 1 := rfl
example : get_current_user 200 (create_access_token 0 (some 1) (some 200)) = .error (401, "Invalid token") := rfl

/-- Symbolic bcrypt hash: `bcrypt.hashpw(pw, bcrypt.gensalt())` is
modelled as a pair of the random salt and (symbolically) the hashed
plaintext; `bcrypt.checkpw` then succeeds exactly on the original
plaintext, as the real scheme does up to negligible collisions. -/
structure BcryptHash where
  salt : Nat
  digest : PlainStr
deriving DecidableEq, Repr

/-- `jwt_auth.hash_password(password)`; the fresh random salt is made an
explicit argument. -/
def hash_password (salt : Nat) (password : PlainStr) : BcryptHash :=
  ⟨salt, password⟩

/-- `jwt_auth.verify_password(password, password_hash)` via
`bcrypt.checkpw`. -/
def verify_password (password : PlainStr) (password_hash : BcryptHash) : Bool :=
  password_hash.digest == password

/-- One row of the `refresh_tokens` table:
`(id, user_id, token_hash, expires_at)` (`created_at` is never read by
the core operations and is omitted). -/
structure RefreshTokenRecord where
  id : Nat
  user_id : Int
  token_hash : BcryptHash
  expires_at : Nat
deriving DecidableEq, Repr

/-- `jwt_auth.create_refresh_token(user_id)`: draws a fresh opaque secret
(`secrets.token_urlsafe(32)`, modelled by the RNG draw `rng`), stores
only its bcrypt hash with `expires_at = now + 7 days`, and returns the
plaintext.  The AUTOINCREMENT row id `rid` and the bcrypt salt are
explicit arguments. -/
def create_refresh_token (db : List RefreshTokenRecord)
    (now rng salt rid : Nat) (user_id : Int) :
    PlainStr × List RefreshTokenRecord :=
  let token := PlainStr.secretTok rng
  let token_hash := hash_password salt token
  let expires_at := now + REFRESH_TOKEN_EXPIRE_DAYS * 86400
  (token, db ++ [⟨rid, user_id, token_hash, expires_at⟩])

/-- `jwt_auth.verify_refresh_token(token)`: selects the rows with
`expires_at > now`, checks the plaintext against each stored hash in
order, and returns the user id of the first match (`None` otherwise). -/
def verify_refresh_token (db : List RefreshTokenRecord) (now : Nat)
    (token : PlainStr) : Option Int :=
  let active := db.filter (fun r => decide (now < r.expires_at))
  (active.find? (fun r => verify_password token r.token_hash)).map
    (fun r => r.user_id)

/-- `jwt_auth.revoke_refresh_token(token)`: scans the unexpired rows for
the first hash match and deletes that row by its id; no match deletes
nothing. -/
def revoke_refresh_token (db : List RefreshTokenRecord) (now : Nat)
    (token : PlainStr) : List RefreshTokenRecord :=
  let active := db.filter (fun r => decide (now < r.expires_at))
  match active.find? (fun r => verify_password token r.token_hash) with
  | none => db
  | some hit => db.filter (fun r => decide (r.id ≠ hit.id))

/-- `jwt_auth.refresh_token` (the `POST /refresh` endpoint): verifies the
supplied refresh token; on failure 401, on success a fresh access token
for the resolved user together with the very same refresh token and
token type `"bearer"`.  The function performs no write, so the store is
returned unchanged. -/
def refresh_endpoint (db : List RefreshTokenRecord) (now : Nat)
    (refresh_tok : PlainStr) :
    Except (Nat × String) (PlainStr × PlainStr × String) ×
      List RefreshTokenRecord :=
  match verify_refresh_token db now refresh_tok with
  | none => (.error (401, "Недействительный refresh токен"), db)
  | some user_id =>
      (.ok (create_access_token now (some user_id) none, refresh_tok,
        "bearer"), db)

/-- One row of the `users` table (`created_at` is never read by the
verification paths and is omitted). -/
structure UserRec where
  id : Int
  email : String
  password_hash : BcryptHash
deriving DecidableEq, Repr

/-- The `users` table plus its AUTOINCREMENT counter. -/
structure UsersDB where
  rows : List UserRec
  next_id : Int
deriving DecidableEq, Repr

/-- `jwt_auth.get_user_by_email(email)`. -/
def get_user_by_email (db : UsersDB) (email : String) : Option UserRec :=
  db.rows.find? (fun u => u.email == email)

/-- `jwt_auth.create_user(email, password)`: hashes the password and
inserts; the UNIQUE constraint on `email` makes the insert fail
atomically (`IntegrityError` → `None`) when the email is taken. -/
def create_user (db : UsersDB) (salt : Nat) (email password : String) :
    Option Int × UsersDB :=
  let password_hash := hash_password salt (.str password)
  if db.rows.any (fun u => u.email == email) then (none, db)
  else (some db.next_id,
    ⟨db.rows ++ [⟨db.next_id, email, password_hash⟩], db.next_id + 1⟩)

/-- `jwt_auth.register` (the `POST /register` endpoint): rejects
passwords shorter than 6 characters, then delegates to `create_user`;
a duplicate email is a 400. -/
def register (db : UsersDB) (salt : Nat) (email password : String) :
    Except (Nat × String) Int × UsersDB :=
  if password.length < 6 then
    (.error (400, "Пароль должен содержать минимум 6 символов"), db)
  else
    match create_user db salt email password with
    | (none, db') =>
        (.error (400, "Пользователь с таким email уже существует"), db')
    | (some user_id, db') => (.ok user_id, db')

/-- `jwt_auth.login` (the `POST /login` endpoint): looks the user up by
email (absent → 401 "Неверный email или пароль"), checks the password
against the stored hash (mismatch → the same 401), then issues an access
token and a refresh token. -/
def login (udb : UsersDB) (rdb : List RefreshTokenRecord)
    (now rng salt rid : Nat) (email password : String) :
    Except (Nat × String) (PlainStr × PlainStr × String) ×
      List RefreshTokenRecord :=
  match get_user_by_email udb email with
  | none => (.error (401, "Неверный email или пароль"), rdb)
  | some u =>
      if verify_password (.str password) u.password_hash then
        let access_token := create_access_token now (some u.id) none
        let (refresh_tok, rdb') := create_refresh_token rdb now rng salt rid u.id
        (.ok (access_token, refresh_tok, "bearer"), rdb')
      else (.error (401, "Неверный email или пароль"), rdb)

/-- `oauth_auth.create_access_token(user_id)`: claims
`{sub, exp = now + 24 hours, type = "access"}` signed with the same
secret; there is no ttl parameter. -/
def oauth_create_access_token (now : Nat) (user_id : Int) : PlainStr :=
  jwtEncode { sub := some user_id, exp := now + 24 * 3600, tokenType := "access" } SECRET_KEY

/-- The claims carried by a token string, when it is a JWT at all. -/
def payloadOf : PlainStr → Option Claims
  | .jwtTok c _ => some c
  | _ => none

/-- Counterexample to C1 as stated: `timedelta(0)` is falsy, so the
source falls back to the 30-minute default for a zero ttl; at
`now = 100`, `ttl = 0` the instant `100 = now + ttl` is at-or-after
`now + ttl`, yet verification still returns the user id instead of the
Expired rejection. -/
theorem zero_ttl_token_not_expired_counterexample :
    get_current_user 100 (create_access_token 100 (some 5) (some 0)) =
      .ok 5 ∧
    (100 : Nat) + 0 ≤ 100 := by
  exact ⟨rfl, by decide⟩

/-- C1 (amended): for every nonzero ttl, verifying an access token
issued at `now` returns the issuing user id at every instant strictly
before `now + ttl`, and at every instant at or after `now + ttl` the
decoder reports the token expired and the verifier rejects with 401; a
zero ttl is falsy in the source and falls back to the 30-minute
default, producing the same token as passing no ttl at all. -/
theorem access_token_roundtrip_expiry (uid : Int) (ttl now t : Nat)
    (httl : ttl ≠ 0) :
    (t < now + ttl →
      get_current_user t (create_access_token now (some uid) (some ttl)) = .ok uid) ∧
    (now + ttl ≤ t →
      jwtDecode SECRET_KEY t (create_access_token now (some uid) (some ttl)) =
        .error .expiredSignature ∧
      get_current_user t (create_access_token now (some uid) (some ttl)) =
        .error (401, "Invalid token")) ∧
    create_access_token now (some uid) (some 0) =
      create_access_token now (some uid) none := by
  refine ⟨?_, ?_, rfl⟩
  · intro h
    simp [get_current_user, create_access_token, jwtEncode, jwtDecode, httl,
      Nat.not_le.mpr h]
  · intro h
    constructor
    · simp [create_access_token, jwtEncode, jwtDecode, httl, h]
    · simp [get_current_user, create_access_token, jwtEncode, jwtDecode, httl, h]

/-- Witness for C1 (amended) at `uid = 5`, `ttl = 60`, `now = 100`: the
token verifies at instant 159 and is expired at instant 160. -/
theorem access_token_roundtrip_expiry_witness :
    get_current_user 159 (create_access_token 100 (some 5) (some 60)) = .ok 5 ∧
    get_current_user 160 (create_access_token 100 (some 5) (some 60)) =
      .error (401, "Invalid token") :=
  ⟨(access_token_roundtrip_expiry 5 60 100 159 (by decide)).1 (by decide),
   ((access_token_roundtrip_expiry 5 60 100 160 (by decide)).2.1 (by decide)).2⟩

/-- A record whose stored digest differs from a plaintext never matches
it under `bcrypt.checkpw`. -/
theorem verify_password_eq_false_of_ne {tok : PlainStr}
    {h : BcryptHash} (hne : h.digest ≠ tok) :
    verify_password tok h = false := by
  simpa [verify_password] using hne

/-- C2: issuing a refresh token for `uid` on a store that does not
already hold (the hash of) the freshly drawn secret, the vault verifies
the returned plaintext to `uid` at any instant before its expiry; and
after revoking that plaintext, verifying it again (at any instant)
returns `None` (Invalid). -/
theorem vault_issue_verify_revoke
    (db : List RefreshTokenRecord) (now rng salt rid : Nat) (uid : Int)
    (t t' : Nat)
    (hfresh : ∀ r ∈ db, r.token_hash.digest ≠ PlainStr.secretTok rng)
    (hexp : t < now + REFRESH_TOKEN_EXPIRE_DAYS * 86400) :
    verify_refresh_token (create_refresh_token db now rng salt rid uid).2 t
      (create_refresh_token db now rng salt rid uid).1 = some uid ∧
    verify_refresh_token
      (revoke_refresh_token (create_refresh_token db now rng salt rid uid).2
        t (create_refresh_token db now rng salt rid uid).1) t'
      (create_refresh_token db now rng salt rid uid).1 = none := by
  have hq : ∀ r ∈ db, verify_password (PlainStr.secretTok rng)
      r.token_hash = false :=
    fun r hr => verify_password_eq_false_of_ne (hfresh r hr)
  have h1 : ∀ s : Nat, ((db.filter fun r => decide (s < r.expires_at)).find?
      fun r => verify_password (PlainStr.secretTok rng) r.token_hash) = none :=
    fun s => List.find?_eq_none.mpr fun x hx => by
      simp [hq x (List.mem_of_mem_filter hx)]
  have hfst : (create_refresh_token db now rng salt rid uid).1 =
      PlainStr.secretTok rng := rfl
  have hsnd : (create_refresh_token db now rng salt rid uid).2 =
      db ++ [⟨rid, uid, ⟨salt, PlainStr.secretTok rng⟩,
        now + REFRESH_TOKEN_EXPIRE_DAYS * 86400⟩] := rfl
  rw [hfst, hsnd]
  constructor
  · simp only [verify_refresh_token]
    rw [List.filter_append, List.find?_append, h1]
    simp [verify_password, hexp]
  · have hrevoke : revoke_refresh_token
        (db ++ [⟨rid, uid, ⟨salt, PlainStr.secretTok rng⟩,
          now + REFRESH_TOKEN_EXPIRE_DAYS * 86400⟩]) t
        (PlainStr.secretTok rng) =
        (db.filter fun r => decide (r.id ≠ rid)) := by
      simp only [revoke_refresh_token]
      rw [List.filter_append, List.find?_append, h1]
      simp [verify_password, hexp, List.filter_append]
    rw [hrevoke]
    simp only [verify_refresh_token]
    have h2 : (((db.filter fun r => decide (r.id ≠ rid)).filter
        fun r => decide (t' < r.expires_at)).find?
        fun r => verify_password (PlainStr.secretTok rng) r.token_hash) = none :=
      List.find?_eq_none.mpr fun x hx => by
        simp [hq x (List.mem_of_mem_filter (List.mem_of_mem_filter hx))]
    rw [h2]
    rfl

/-- Witness for C2: a one-record store, a fresh draw, issue at instant 0,
verify at instant 10, revoke then re-verify at instant 20. -/
theorem vault_issue_verify_revoke_witness :
    verify_refresh_token
      (create_refresh_token [⟨1, 9, ⟨4, PlainStr.secretTok 2⟩, 50⟩] 0 3 5 6 7).2
      10 (create_refresh_token [⟨1, 9, ⟨4, PlainStr.secretTok 2⟩, 50⟩] 0 3 5 6 7).1 =
      some 7 ∧
    verify_refresh_token
      (revoke_refresh_token
        (create_refresh_token [⟨1, 9, ⟨4, PlainStr.secretTok 2⟩, 50⟩] 0 3 5 6 7).2
        10 (create_refresh_token [⟨1, 9, ⟨4, PlainStr.secretTok 2⟩, 50⟩] 0 3 5 6 7).1)
      20 (create_refresh_token [⟨1, 9, ⟨4, PlainStr.secretTok 2⟩, 50⟩] 0 3 5 6 7).1 =
      none :=
  vault_issue_verify_revoke [⟨1, 9, ⟨4, PlainStr.secretTok 2⟩, 50⟩] 0 3 5 6 7
    10 20 (by intro r hr; simp at hr; subst hr; simp) (by decide)

/-- C3: the plaintext returned by `create_refresh_token` is rejected by
the access-token verifier at every instant (it is not a JWT at all); and
on a store whose rows all hash opaque secrets — as every row written by
`create_refresh_token` does — the refresh verifier rejects every string
produced by `create_access_token`: the two artifact kinds are mutually
non-interchangeable. -/
theorem token_kinds_not_interchangeable
    (db db₂ : List RefreshTokenRecord) (now now₂ rng salt rid t t₂ : Nat)
    (uid uid₂ : Int) (d : Option Nat)
    (hwf : ∀ r ∈ db₂, ∃ n, r.token_hash.digest = PlainStr.secretTok n) :
    get_current_user t (create_refresh_token db now rng salt rid uid).1 =
      .error (401, "Invalid token") ∧
    verify_refresh_token db₂ t₂ (create_access_token now₂ (some uid₂) d) =
      none := by
  constructor
  · rfl
  · simp only [verify_refresh_token]
    have h2 : ((db₂.filter fun r => decide (t₂ < r.expires_at)).find?
        fun r => verify_password (create_access_token now₂ (some uid₂) d)
          r.token_hash) = none :=
      List.find?_eq_none.mpr fun x hx => by
        obtain ⟨n, hn⟩ := hwf x (List.mem_of_mem_filter hx)
        have : x.token_hash.digest ≠ create_access_token now₂ (some uid₂) d := by
          rw [hn]
          cases d <;> simp [create_access_token, jwtEncode]
        simp [verify_password_eq_false_of_ne this]
    rw [h2]
    rfl

/-- Witness for C3: a store holding one hashed opaque secret rejects a
concrete access token, and a concrete issued refresh secret is rejected
by the access verifier. -/
theorem token_kinds_not_interchangeable_witness :
    get_current_user 5
      (create_refresh_token [⟨1, 9, ⟨4, PlainStr.secretTok 2⟩, 50⟩] 0 3 5 6 7).1 =
      .error (401, "Invalid token") ∧
    verify_refresh_token [⟨1, 9, ⟨4, PlainStr.secretTok 2⟩, 50⟩] 5
      (create_access_token 0 (some 7) none) = none :=
  token_kinds_not_interchangeable [] [⟨1, 9, ⟨4, PlainStr.secretTok 2⟩, 50⟩]
    0 0 3 5 6 5 5 7 7 none
    (by intro r hr; simp at hr; subst hr; exact ⟨2, rfl⟩)

/-- C9: on a valid refresh token resolving to `uid`, the `/refresh`
endpoint answers with a freshly issued access token for `uid` (which the
access verifier accepts at issue time) together with the very same
refresh token, and the refresh-token store is returned unchanged. -/
theorem refresh_reissues_access_preserves_store
    (db : List RefreshTokenRecord) (now : Nat) (tok : PlainStr) (uid : Int)
    (hvalid : verify_refresh_token db now tok = some uid) :
    refresh_endpoint db now tok =
      (.ok (create_access_token now (some uid) none, tok, "bearer"), db) ∧
    get_current_user now (create_access_token now (some uid) none) =
      .ok uid := by
  constructor
  · unfold refresh_endpoint
    rw [hvalid]
  · have hlt : ¬ (now + ACCESS_TOKEN_EXPIRE_MINUTES * 60 ≤ now) := by
      simp [ACCESS_TOKEN_EXPIRE_MINUTES]
    simp [get_current_user, create_access_token, jwtEncode, jwtDecode, hlt]

/-- Witness for C9 on a concrete one-record store and its matching
secret. -/
theorem refresh_reissues_access_preserves_store_witness :
    refresh_endpoint [⟨1, 7, ⟨5, PlainStr.secretTok 3⟩, 100⟩] 50
      (PlainStr.secretTok 3) =
      (.ok (create_access_token 50 (some 7) none, PlainStr.secretTok 3,
        "bearer"), [⟨1, 7, ⟨5, PlainStr.secretTok 3⟩, 100⟩]) ∧
    get_current_user 50 (create_access_token 50 (some 7) none) = .ok 7 :=
  refresh_reissues_access_preserves_store
    [⟨1, 7, ⟨5, PlainStr.secretTok 3⟩, 100⟩] 50 (PlainStr.secretTok 3) 7 rfl

/-- C4: when `create_user` succeeds for `(email, password)` (password at
least 6 characters long, as `register` requires) and returns id `uid`,
logging in with the same credentials on the resulting store succeeds and
issues tokens for exactly the user id `uid`. -/
theorem register_then_login_same_id
    (udb udb' : UsersDB) (rdb : List RefreshTokenRecord)
    (salt now rng salt₂ rid : Nat) (email password : String) (uid : Int)
    (_hlen : 6 ≤ password.length)
    (hreg : create_user udb salt email password = (some uid, udb')) :
    (login udb' rdb now rng salt₂ rid email password).1 =
      .ok (create_access_token now (some uid) none,
        (create_refresh_token rdb now rng salt₂ rid uid).1, "bearer") ∧
    get_current_user now (create_access_token now (some uid) none) =
      .ok uid := by
  unfold create_user at hreg
  split at hreg
  case isTrue hdup =>
    exact absurd (congrArg Prod.fst hreg) (by simp)
  case isFalse hdup =>
    rw [Prod.mk.injEq] at hreg
    obtain ⟨ha, hb⟩ := hreg
    rw [Option.some.injEq] at ha
    constructor
    · have hnone : (udb.rows.find? fun u => u.email == email) = none :=
        List.find?_eq_none.mpr fun x hx => by
          intro hpx
          exact hdup (List.any_eq_true.mpr ⟨x, hx, hpx⟩)
      unfold login get_user_by_email
      rw [← hb]
      rw [List.find?_append, hnone]
      simp [verify_password, hash_password, ha]
    · have hlt : ¬ (now + ACCESS_TOKEN_EXPIRE_MINUTES * 60 ≤ now) := by
        simp [ACCESS_TOKEN_EXPIRE_MINUTES]
      simp [get_current_user, create_access_token, jwtEncode, jwtDecode, hlt]

/-- Witness for C4 on an empty user store: registering `"a@x.com"` with
password `"secret1"` yields id 1, and logging in returns tokens for
id 1. -/
theorem register_then_login_same_id_witness :
    (login ⟨[⟨1, "a@x.com", ⟨4, PlainStr.str "secret1"⟩⟩], 2⟩ [] 0 3 5 6
      "a@x.com" "secret1").1 =
      .ok (create_access_token 0 (some 1) none,
        (create_refresh_token [] 0 3 5 6 1).1, "bearer") ∧
    get_current_user 0 (create_access_token 0 (some 1) none) = .ok 1 :=
  register_then_login_same_id ⟨[], 1⟩
    ⟨[⟨1, "a@x.com", ⟨4, PlainStr.str "secret1"⟩⟩], 2⟩ [] 4 0 3 5 6
    "a@x.com" "secret1" 1 (by decide) rfl

/-- C5: for a registered user, logging in with their email and a
non-matching password, and logging in with an email bound to no user at
all, produce literally the same 401 InvalidCredentials outcome (and both
leave the refresh store unchanged): the two failure runs are
indistinguishable. -/
theorem login_failures_indistinguishable
    (udb : UsersDB) (rdb rdb₂ : List RefreshTokenRecord)
    (now rng salt rid now₂ rng₂ salt₂ rid₂ : Nat)
    (email wrongpw unknown_email anypw : String) (u : UserRec)
    (hfound : get_user_by_email udb email = some u)
    (hwrong : verify_password (.str wrongpw) u.password_hash = false)
    (hunknown : get_user_by_email udb unknown_email = none) :
    login udb rdb now rng salt rid email wrongpw =
      (.error (401, "Неверный email или пароль"), rdb) ∧
    login udb rdb₂ now₂ rng₂ salt₂ rid₂ unknown_email anypw =
      (.error (401, "Неверный email или пароль"), rdb₂) ∧
    (login udb rdb now rng salt rid email wrongpw).1 =
      (login udb rdb₂ now₂ rng₂ salt₂ rid₂ unknown_email anypw).1 := by
  have h1 : login udb rdb now rng salt rid email wrongpw =
      (.error (401, "Неверный email или пароль"), rdb) := by
    unfold login
    rw [hfound]
    simp [hwrong]
  have h2 : login udb rdb₂ now₂ rng₂ salt₂ rid₂ unknown_email anypw =
      (.error (401, "Неверный email или пароль"), rdb₂) := by
    unfold login
    rw [hunknown]
  exact ⟨h1, h2, by rw [h1, h2]⟩

/-- Witness for C5 on a concrete one-user store: wrong password for the
registered email and any password for an unknown email give the same
outcome. -/
theorem login_failures_indistinguishable_witness :
    login ⟨[⟨1, "a@x.com", ⟨4, PlainStr.str "secret1"⟩⟩], 2⟩ [] 0 3 5 6
      "a@x.com" "wrong!" =
      (.error (401, "Неверный email или пароль"), []) ∧
    login ⟨[⟨1, "a@x.com", ⟨4, PlainStr.str "secret1"⟩⟩], 2⟩ [] 0 3 5 6
      "b@x.com" "secret1" =
      (.error (401, "Неверный email или пароль"), []) ∧
    (login ⟨[⟨1, "a@x.com", ⟨4, PlainStr.str "secret1"⟩⟩], 2⟩ [] 0 3 5 6
      "a@x.com" "wrong!").1 =
      (login ⟨[⟨1, "a@x.com", ⟨4, PlainStr.str "secret1"⟩⟩], 2⟩ [] 0 3 5 6
        "b@x.com" "secret1").1 :=
  login_failures_indistinguishable
    ⟨[⟨1, "a@x.com", ⟨4, PlainStr.str "secret1"⟩⟩], 2⟩ [] [] 0 3 5 6 0 3 5 6
    "a@x.com" "wrong!" "b@x.com" "secret1"
    ⟨1, "a@x.com", ⟨4, PlainStr.str "secret1"⟩⟩ rfl rfl rfl

/-- Counterexample to C6 as stated: in the OAuth variant the (only)
issuance path stamps `expiresAt = now + 24 hours`, not `now + 30
minutes`; at `now = 0`, `uid = 1` the produced claim is 86400, while the
claimed default would be 1800. -/
theorem default_ttl_not_uniform_counterexample :
    (payloadOf (oauth_create_access_token 0 1)).map Claims.exp =
      some 86400 ∧
    (payloadOf (create_access_token 0 (some 1) none)).map Claims.exp =
      some 1800 ∧
    (86400 : Nat) ≠ 0 + 30 * 60 := by
  refine ⟨rfl, rfl, by decide⟩

/-- C6 (amended): in the `jwt_auth` variant, `create_access_token`
without an explicit ttl builds exactly the claims
`{subject, expiresAt = now + 30 minutes, tokenType = "access"}`
(`ACCESS_TOKEN_EXPIRE_MINUTES = 30`), while the `oauth_auth` variant
always stamps `expiresAt = now + 24 hours`. -/
theorem default_ttl_by_variant (now : Nat) (uid : Int) :
    payloadOf (create_access_token now (some uid) none) =
      some { sub := some uid, exp := now + 1800, tokenType := "access" } ∧
    payloadOf (oauth_create_access_token now uid) =
      some { sub := some uid, exp := now + 86400, tokenType := "access" } ∧
    ACCESS_TOKEN_EXPIRE_MINUTES = 30 :=
  ⟨rfl, rfl, rfl⟩

/-- One session record as stored by `session_auth`; `data` is the opaque
JSON object payload, modelled as a list of key-value pairs. -/
structure SessionRec where
  session_id : String
  user_id : Int
  created_at : Nat
  expires_at : Nat
  last_activity : Nat
  data : List (String × String)
deriving DecidableEq, Repr

/-- `MemorySessionStorage.get_session`: a missing key returns `None`;
an expired record (`utcnow() > expires_at`) is deleted from the dict
before returning `None`; otherwise the record is returned. -/
def memory_get_session (store : List SessionRec) (now : Nat)
    (sid : String) : Option SessionRec × List SessionRec :=
  match store.find? (fun s => s.session_id == sid) with
  | none => (none, store)
  | some s =>
      if s.expires_at < now then
        (none, store.filter (fun x => x.session_id != sid))
      else (some s, store)

/-- `MemorySessionStorage.update_session`: a missing key fails; an
expired record is deleted from the dict and the call fails; otherwise
`last_activity` is set to `now`, `data` is replaced, and the call
succeeds. -/
def memory_update_session (store : List SessionRec) (now : Nat)
    (sid : String) (d : List (String × String)) :
    Bool × List SessionRec :=
  match store.find? (fun s => s.session_id == sid) with
  | none => (false, store)
  | some s =>
      if s.expires_at < now then
        (false, store.filter (fun x => x.session_id != sid))
      else
        (true, store.map (fun x =>
          if x.session_id == sid then
            { x with last_activity := now, data := d }
          else x))

/-- `MemorySessionStorage.cleanup_expired`: collects the keys with
`utcnow() > expires_at`, deletes them, and returns how many. -/
def memory_cleanup_expired (store : List SessionRec) (now : Nat) :
    Nat × List SessionRec :=
  ((store.filter (fun s => decide (s.expires_at < now))).length,
   store.filter (fun s => !decide (s.expires_at < now)))

/-- `SQLiteSessionStorage.get_session`:
`SELECT ... WHERE id = ? AND expires_at > datetime('now')`; the
operation performs no write, so the table is returned unchanged. -/
def sqlite_get_session (store : List SessionRec) (now : Nat)
    (sid : String) : Option SessionRec × List SessionRec :=
  (store.find? (fun s => s.session_id == sid && decide (now < s.expires_at)),
   store)

/-- `SQLiteSessionStorage.update_session`:
`UPDATE sessions SET last_activity = now, data = ? WHERE id = ? AND
expires_at > datetime('now')`, reporting `rowcount > 0`. -/
def sqlite_update_session (store : List SessionRec) (now : Nat)
    (sid : String) (d : List (String × String)) :
    Bool × List SessionRec :=
  (store.any (fun s => s.session_id == sid && decide (now < s.expires_at)),
   store.map (fun s =>
     if s.session_id == sid && decide (now < s.expires_at) then
       { s with last_activity := now, data := d }
     else s))

/-- `SQLiteSessionStorage.cleanup_expired`:
`DELETE FROM sessions WHERE expires_at <= datetime("now")`, reporting
the rowcount. -/
def sqlite_cleanup_expired (store : List SessionRec) (now : Nat) :
    Nat × List SessionRec :=
  ((store.filter (fun s => decide (s.expires_at ≤ now))).length,
   store.filter (fun s => !decide (s.expires_at ≤ now)))

/-- A session file of `FileSessionStorage`: either a record that parses,
or a corrupt/unparseable file (a `json.load`/key/format error). -/
inductive FileEntry where
  | corrupt
  | parsed (s : SessionRec)
deriving DecidableEq, Repr

/-- `FileSessionStorage.get_session`: a missing file is `None`; a
corrupt file is deleted and `None`; an expired record's file is deleted
and `None`; otherwise the parsed record is returned. -/
def file_get_session (store : List (String × FileEntry)) (now : Nat)
    (sid : String) : Option SessionRec × List (String × FileEntry) :=
  match store.find? (fun e => e.1 == sid) with
  | none => (none, store)
  | some (_, .corrupt) => (none, store.filter (fun e => e.1 != sid))
  | some (_, .parsed s) =>
      if s.expires_at < now then
        (none, store.filter (fun e => e.1 != sid))
      else (some s, store)

/-- `FileSessionStorage.update_session`: a missing file fails; a corrupt
file fails (the exception is caught, the file stays); an expired
record's file is deleted and the call fails; otherwise the file is
rewritten with `last_activity = now` and the new `data`. -/
def file_update_session (store : List (String × FileEntry)) (now : Nat)
    (sid : String) (d : List (String × String)) :
    Bool × List (String × FileEntry) :=
  match store.find? (fun e => e.1 == sid) with
  | none => (false, store)
  | some (_, .corrupt) => (false, store)
  | some (_, .parsed s) =>
      if s.expires_at < now then
        (false, store.filter (fun e => e.1 != sid))
      else
        (true, store.map (fun e =>
          if e.1 == sid then
            (e.1, FileEntry.parsed { s with last_activity := now, data := d })
          else e))

/-- `FileSessionStorage.cleanup_expired`: scans the directory, deleting
every expired record's file and every corrupt file, counting both. -/
def file_cleanup_expired (store : List (String × FileEntry)) (now : Nat) :
    Nat × List (String × FileEntry) :=
  let gone : String × FileEntry → Bool := fun e =>
    match e.2 with
    | .corrupt => true
    | .parsed s => decide (s.expires_at < now)
  ((store.filter gone).length, store.filter (fun e => !gone e))

/-- Counterexample to C7 as stated: on the memory backend, updating an
expired session (store `[{"a", expires_at = 10}]` at instant 20) fails
but does NOT leave the store unchanged — the expired record is deleted
as a side effect. -/
theorem update_expired_changes_store_counterexample :
    memory_update_session [⟨"a", 7, 0, 10, 0, []⟩] 20 "a" [("k", "v")] =
      (false, []) ∧
    ([] : List SessionRec) ≠ [⟨"a", 7, 0, 10, 0, []⟩] := by
  constructor
  · rfl
  · decide

/-- C7 (amended): on both the memory and the SQLite backend, updating an
existing session the backend still considers live sets
`lastActivityAt = now` and replaces `data` on that record, reports
success, and leaves `sessionId`, `userId`, `createdAt` and `expiresAt`
of every record unchanged; updating an absent session fails and changes
nothing on either backend; updating an expired session fails on both,
changes nothing on SQLite, but on the memory backend deletes the expired
record. -/
theorem update_session_refreshes_and_fails
    (store : List SessionRec) (now : Nat) (sid : String)
    (d : List (String × String)) :
    (store.find? (fun x => x.session_id == sid) = none →
      memory_update_session store now sid d = (false, store)) ∧
    (∀ s, store.find? (fun x => x.session_id == sid) = some s →
      s.expires_at < now →
      (memory_update_session store now sid d).1 = false ∧
      ∀ x ∈ (memory_update_session store now sid d).2,
        x ∈ store ∧ x.session_id ≠ sid) ∧
    (∀ s, store.find? (fun x => x.session_id == sid) = some s →
      ¬ s.expires_at < now →
      (memory_update_session store now sid d).1 = true ∧
      ∀ (i : Nat) (x : SessionRec), store[i]? = some x →
        (memory_update_session store now sid d).2[i]? =
          some (if x.session_id = sid then
            { x with last_activity := now, data := d } else x)) ∧
    ((sqlite_update_session store now sid d).1 = true ↔
      ∃ x ∈ store, x.session_id = sid ∧ now < x.expires_at) ∧
    (∀ (i : Nat) (x : SessionRec), store[i]? = some x →
      (sqlite_update_session store now sid d).2[i]? =
        some (if x.session_id = sid ∧ now < x.expires_at then
          { x with last_activity := now, data := d } else x)) := by
  refine ⟨?_, ?_, ?_, ?_, ?_⟩
  · intro h
    simp [memory_update_session, h]
  · intro s hs hexp
    have hres : memory_update_session store now sid d =
        (false, store.filter (fun x => x.session_id != sid)) := by
      simp only [memory_update_session]
      rw [hs]
      simp [hexp]
    refine ⟨by rw [hres], ?_⟩
    rw [hres]
    intro x hx
    exact ⟨List.mem_of_mem_filter hx, by simpa using List.of_mem_filter hx⟩
  · intro s hs hnexp
    have hres : memory_update_session store now sid d =
        (true, store.map (fun x =>
          if x.session_id == sid then
            { x with last_activity := now, data := d } else x)) := by
      simp only [memory_update_session]
      rw [hs]
      simp [hnexp]
    refine ⟨by rw [hres], ?_⟩
    intro i x hix
    rw [hres]
    simp only [List.getElem?_map, hix, Option.map_some]
    by_cases hcase : x.session_id = sid <;> simp [hcase]
  · simp only [sqlite_update_session]
    rw [List.any_eq_true]
    constructor
    · rintro ⟨x, hx, hpx⟩
      simp only [Bool.and_eq_true, beq_iff_eq, decide_eq_true_eq] at hpx
      exact ⟨x, hx, hpx⟩
    · rintro ⟨x, hx, h1, h2⟩
      exact ⟨x, hx, by simp [h1, h2]⟩
  · intro i x hix
    simp only [sqlite_update_session, List.getElem?_map, hix, Option.map_some]
    by_cases h1 : x.session_id = sid
    · by_cases h2 : now < x.expires_at
      · simp [h1, h2]
      · simp [h1, h2]
    · simp [h1]

/-- Witness for C7 (amended) on the one-record store
`[{"a", expires_at = 100}]` at instant 5: the update succeeds on both
backends and rewrites exactly `last_activity` and `data`. -/
theorem update_session_refreshes_and_fails_witness :
    (memory_update_session [⟨"a", 7, 0, 100, 0, []⟩] 5 "a" [("k", "v")]).1 =
      true ∧
    (memory_update_session [⟨"a", 7, 0, 100, 0, []⟩] 5 "a" [("k", "v")]).2[0]? =
      some ⟨"a", 7, 0, 100, 5, [("k", "v")]⟩ ∧
    (sqlite_update_session [⟨"a", 7, 0, 100, 0, []⟩] 5 "a" [("k", "v")]).1 =
      true := by
  obtain ⟨-, -, hc, hd, -⟩ :=
    update_session_refreshes_and_fails [⟨"a", 7, 0, 100, 0, []⟩] 5 "a"
      [("k", "v")]
  have h1 := hc ⟨"a", 7, 0, 100, 0, []⟩ rfl (by decide)
  refine ⟨h1.1, ?_, ?_⟩
  · have h2 := h1.2 0 ⟨"a", 7, 0, 100, 0, []⟩ rfl
    simpa using h2
  · exact hd.mpr ⟨⟨"a", 7, 0, 100, 0, []⟩, by decide, rfl, by decide⟩

/-- Counterexample to C8 as stated: at instant 0, the file backend's
sweep deletes a corrupt entry and reports one deletion although no
record's expiry has passed; and on the identical store
`[{"b", expires_at = 10}]` at instant 10 the memory sweep deletes
nothing while the SQLite sweep deletes the record, so no single reading
of "expiresAt has passed" makes the deleted set exact on every
backend. -/
theorem sweep_counterexample :
    file_cleanup_expired [("a", FileEntry.corrupt)] 0 = (1, []) ∧
    memory_cleanup_expired [⟨"b", 7, 0, 10, 0, []⟩] 10 =
      (0, [⟨"b", 7, 0, 10, 0, []⟩]) ∧
    sqlite_cleanup_expired [⟨"b", 7, 0, 10, 0, []⟩] 10 = (1, []) := by
  refine ⟨rfl, rfl, rfl⟩

/-- C8 (amended): every backend's sweep keeps every record with a
strictly future expiry and deletes none of them; the SQLite sweep
deletes exactly the records with `expires_at ≤ now`, the memory and
file sweeps exactly those with `expires_at < now` — the file sweep in
addition deletes every corrupt entry; the reported count is exactly the
number of entries removed; and an immediately repeated sweep deletes
nothing and reports zero. -/
theorem sweep_exact_and_idempotent
    (sstore mstore : List SessionRec) (fstore : List (String × FileEntry))
    (now : Nat) :
    ((∀ s ∈ (sqlite_cleanup_expired sstore now).2, now < s.expires_at) ∧
     (∀ s ∈ sstore, now < s.expires_at →
       s ∈ (sqlite_cleanup_expired sstore now).2) ∧
     (sqlite_cleanup_expired sstore now).1 +
       (sqlite_cleanup_expired sstore now).2.length = sstore.length ∧
     sqlite_cleanup_expired (sqlite_cleanup_expired sstore now).2 now =
       (0, (sqlite_cleanup_expired sstore now).2)) ∧
    ((∀ s ∈ (memory_cleanup_expired mstore now).2, ¬ s.expires_at < now) ∧
     (∀ s ∈ mstore, ¬ s.expires_at < now →
       s ∈ (memory_cleanup_expired mstore now).2) ∧
     (memory_cleanup_expired mstore now).1 +
       (memory_cleanup_expired mstore now).2.length = mstore.length ∧
     memory_cleanup_expired (memory_cleanup_expired mstore now).2 now =
       (0, (memory_cleanup_expired mstore now).2)) ∧
    ((∀ e ∈ (file_cleanup_expired fstore now).2,
       ∃ s, e.2 = FileEntry.parsed s ∧ ¬ s.expires_at < now) ∧
     (∀ e ∈ fstore, ∀ s, e.2 = FileEntry.parsed s → ¬ s.expires_at < now →
       e ∈ (file_cleanup_expired fstore now).2) ∧
     (file_cleanup_expired fstore now).1 +
       (file_cleanup_expired fstore now).2.length = fstore.length ∧
     file_cleanup_expired (file_cleanup_expired fstore now).2 now =
       (0, (file_cleanup_expired fstore now).2)) := by
  refine ⟨⟨?_, ?_, ?_, ?_⟩, ⟨?_, ?_, ?_, ?_⟩, ⟨?_, ?_, ?_, ?_⟩⟩
  · intro s hs
    have := List.of_mem_filter hs
    simp at this
    omega
  · intro s hs h
    exact List.mem_filter_of_mem hs (by simp; omega)
  · exact (List.length_eq_length_filter_add _).symm
  · have hkept : ∀ a ∈ (sqlite_cleanup_expired sstore now).2,
        (!decide (a.expires_at ≤ now)) = true := by
      intro a ha
      simp only [sqlite_cleanup_expired] at ha
      exact (List.mem_filter.mp ha).2
    have h1 : ((sqlite_cleanup_expired sstore now).2.filter
        (fun s => decide (s.expires_at ≤ now))) = [] :=
      List.filter_eq_nil_iff.mpr fun a ha => by
        have := hkept a ha
        simp only [Bool.not_eq_true'] at this
        simp [this]
    have h2 : ((sqlite_cleanup_expired sstore now).2.filter
        (fun s => !decide (s.expires_at ≤ now))) =
        (sqlite_cleanup_expired sstore now).2 :=
      List.filter_eq_self.mpr hkept
    calc sqlite_cleanup_expired (sqlite_cleanup_expired sstore now).2 now
        = (((sqlite_cleanup_expired sstore now).2.filter
            (fun s => decide (s.expires_at ≤ now))).length,
           (sqlite_cleanup_expired sstore now).2.filter
            (fun s => !decide (s.expires_at ≤ now))) := rfl
      _ = (0, (sqlite_cleanup_expired sstore now).2) := by rw [h1, h2]; rfl
  · intro s hs
    have := List.of_mem_filter hs
    simpa using this
  · intro s hs h
    exact List.mem_filter_of_mem hs (by simpa using h)
  · exact (List.length_eq_length_filter_add _).symm
  · have hkept : ∀ a ∈ (memory_cleanup_expired mstore now).2,
        (!decide (a.expires_at < now)) = true := by
      intro a ha
      simp only [memory_cleanup_expired] at ha
      exact (List.mem_filter.mp ha).2
    have h1 : ((memory_cleanup_expired mstore now).2.filter
        (fun s => decide (s.expires_at < now))) = [] :=
      List.filter_eq_nil_iff.mpr fun a ha => by
        have := hkept a ha
        simp only [Bool.not_eq_true'] at this
        simp [this]
    have h2 : ((memory_cleanup_expired mstore now).2.filter
        (fun s => !decide (s.expires_at < now))) =
        (memory_cleanup_expired mstore now).2 :=
      List.filter_eq_self.mpr hkept
    calc memory_cleanup_expired (memory_cleanup_expired mstore now).2 now
        = (((memory_cleanup_expired mstore now).2.filter
            (fun s => decide (s.expires_at < now))).length,
           (memory_cleanup_expired mstore now).2.filter
            (fun s => !decide (s.expires_at < now))) := rfl
      _ = (0, (memory_cleanup_expired mstore now).2) := by rw [h1, h2]; rfl
  · intro e he
    have h := List.of_mem_filter he
    obtain ⟨k, fe⟩ := e
    cases fe with
    | corrupt => simp [file_cleanup_expired] at h
    | parsed s =>
        refine ⟨s, rfl, ?_⟩
        simpa using h
  · intro e hs s hparsed h
    refine List.mem_filter_of_mem hs ?_
    obtain ⟨k, fe⟩ := e
    simp at hparsed
    subst hparsed
    simpa using h
  · exact (List.length_eq_length_filter_add _).symm
  · have hkept : ∀ a ∈ (file_cleanup_expired fstore now).2,
        (!(match a.2 with
          | FileEntry.corrupt => true
          | FileEntry.parsed s => decide (s.expires_at < now))) = true := by
      intro a ha
      simp only [file_cleanup_expired] at ha
      exact (List.mem_filter.mp ha).2
    have h1 : ((file_cleanup_expired fstore now).2.filter
        (fun e => match e.2 with
          | FileEntry.corrupt => true
          | FileEntry.parsed s => decide (s.expires_at < now))) = [] :=
      List.filter_eq_nil_iff.mpr fun a ha => by
        have := hkept a ha
        simp only [Bool.not_eq_true'] at this
        simp [this]
    have h2 : ((file_cleanup_expired fstore now).2.filter
        (fun e => !(match e.2 with
          | FileEntry.corrupt => true
          | FileEntry.parsed s => decide (s.expires_at < now)))) =
        (file_cleanup_expired fstore now).2 :=
      List.filter_eq_self.mpr hkept
    calc file_cleanup_expired (file_cleanup_expired fstore now).2 now
        = (((file_cleanup_expired fstore now).2.filter
            (fun e => match e.2 with
              | FileEntry.corrupt => true
              | FileEntry.parsed s => decide (s.expires_at < now))).length,
           (file_cleanup_expired fstore now).2.filter
            (fun e => !(match e.2 with
              | FileEntry.corrupt => true
              | FileEntry.parsed s => decide (s.expires_at < now)))) := rfl
      _ = (0, (file_cleanup_expired fstore now).2) := by rw [h1, h2]; rfl

/-- Witness for C8 (amended) on concrete two-record stores at
instant 10: the future record survives the SQLite sweep, and the memory
sweep is idempotent. -/
theorem sweep_exact_and_idempotent_witness :
    (⟨"b", 2, 0, 50, 0, []⟩ : SessionRec) ∈
      (sqlite_cleanup_expired
        [⟨"a", 1, 0, 5, 0, []⟩, ⟨"b", 2, 0, 50, 0, []⟩] 10).2 ∧
    memory_cleanup_expired
      (memory_cleanup_expired
        [⟨"a", 1, 0, 5, 0, []⟩, ⟨"b", 2, 0, 50, 0, []⟩] 10).2 10 =
      (0, (memory_cleanup_expired
        [⟨"a", 1, 0, 5, 0, []⟩, ⟨"b", 2, 0, 50, 0, []⟩] 10).2) := by
  obtain ⟨hs, hm, -⟩ :=
    sweep_exact_and_idempotent
      [⟨"a", 1, 0, 5, 0, []⟩, ⟨"b", 2, 0, 50, 0, []⟩]
      [⟨"a", 1, 0, 5, 0, []⟩, ⟨"b", 2, 0, 50, 0, []⟩] [] 10
  exact ⟨hs.2.1 ⟨"b", 2, 0, 50, 0, []⟩ (by decide) (by decide), hm.2.2.2⟩

/-- C10: fetching an expired session on the memory backend deletes the
record before returning `None`; on the file backend fetching a corrupt
entry, or an expired one, deletes it before returning `None`; the SQLite
backend's `get_session` returns the table unchanged on every input. -/
theorem get_session_side_effects
    (mstore sstore : List SessionRec) (fstore : List (String × FileEntry))
    (now : Nat) (sid : String) :
    (∀ s, mstore.find? (fun x => x.session_id == sid) = some s →
      s.expires_at < now →
      memory_get_session mstore now sid =
        (none, mstore.filter (fun x => x.session_id != sid)) ∧
      ∀ x ∈ (memory_get_session mstore now sid).2, x.session_id ≠ sid) ∧
    (∀ k, fstore.find? (fun e => e.1 == sid) = some (k, FileEntry.corrupt) →
      file_get_session fstore now sid =
        (none, fstore.filter (fun e => e.1 != sid)) ∧
      ∀ e ∈ (file_get_session fstore now sid).2, e.1 ≠ sid) ∧
    (∀ k s, fstore.find? (fun e => e.1 == sid) =
        some (k, FileEntry.parsed s) →
      s.expires_at < now →
      file_get_session fstore now sid =
        (none, fstore.filter (fun e => e.1 != sid)) ∧
      ∀ e ∈ (file_get_session fstore now sid).2, e.1 ≠ sid) ∧
    (sqlite_get_session sstore now sid).2 = sstore := by
  refine ⟨?_, ?_, ?_, rfl⟩
  · intro s hs hexp
    have hres : memory_get_session mstore now sid =
        (none, mstore.filter (fun x => x.session_id != sid)) := by
      simp only [memory_get_session]
      rw [hs]
      simp [hexp]
    refine ⟨hres, ?_⟩
    rw [hres]
    intro x hx
    simpa using List.of_mem_filter hx
  · intro k hk
    have hres : file_get_session fstore now sid =
        (none, fstore.filter (fun e => e.1 != sid)) := by
      simp only [file_get_session]
      rw [hk]
    refine ⟨hres, ?_⟩
    rw [hres]
    intro e he
    simpa using List.of_mem_filter he
  · intro k s hk hexp
    have hres : file_get_session fstore now sid =
        (none, fstore.filter (fun e => e.1 != sid)) := by
      simp only [file_get_session]
      rw [hk]
      simp [hexp]
    refine ⟨hres, ?_⟩
    rw [hres]
    intro e he
    simpa using List.of_mem_filter he

/-- Witness for C10: an expired record on the memory backend and a
corrupt entry on the file backend are both purged by a get; a SQLite get
returns the table unchanged. -/
theorem get_session_side_effects_witness :
    memory_get_session [⟨"a", 7, 0, 10, 0, []⟩] 20 "a" = (none, []) ∧
    file_get_session [("c", FileEntry.corrupt)] 20 "c" = (none, []) ∧
    (sqlite_get_session [⟨"a", 7, 0, 10, 0, []⟩] 20 "a").2 =
      [⟨"a", 7, 0, 10, 0, []⟩] := by
  obtain ⟨hm, hf, -, hq⟩ :=
    get_session_side_effects [⟨"a", 7, 0, 10, 0, []⟩]
      [⟨"a", 7, 0, 10, 0, []⟩] [("c", FileEntry.corrupt)] 20 "a"
  refine ⟨?_, ?_, hq⟩
  · have := (hm ⟨"a", 7, 0, 10, 0, []⟩ rfl (by decide)).1
    simpa using this
  · obtain ⟨-, hf20, -, -⟩ :=
      get_session_side_effects [] [] [("c", FileEntry.corrupt)] 20 "c"
    have := (hf20 "c" rfl).1
    simpa using this
